import Mathlib

/-!
Shallow embedding of the conversation-and-search orchestration logic of
`MediAssist.py` (a single-file medical chat front-end).

The embedding keeps the source's structure and names:
  * `search_web`        — Serper search call (transport modelled as an oracle);
  * `format_search_results` — turns a parsed search response into a text block;
  * `medical_context`, the two prompt f-string templates — transcribed byte
    for byte from the source, including indentation and trailing spaces;
  * `get_gemini_response` — the per-turn handler (LLM call modelled as an
    oracle returning either the reply text or the exception's string);
  * `rerun` — one top-to-bottom execution of `main()`'s session-state logic
    (Streamlit reruns the script per interaction): toggle, clear button,
    greeting refill, and the processing of a submitted chat input.
-/

/-- One display-history entry (`st.session_state.messages`):
a dict `{"role": ..., "content": ...}`. -/
structure DisplayMsg where
  role : String
  content : String
  deriving DecidableEq, Repr

/-- One model-context entry (`st.session_state.chat_history`):
a dict `{"role": ..., "parts": [...]}`. -/
structure ModelTurn where
  role : String
  parts : List String
  deriving DecidableEq, Repr

/-- One organic search hit as consumed by `format_search_results`;
every sub-field is optional because the code reads it with `.get(key, default)`. -/
structure OrganicEntry where
  title : Option String
  link : Option String
  snippet : Option String
  deriving DecidableEq, Repr

/-- The `answerBox` object of a Serper response; sub-fields optional. -/
structure AnswerBox where
  title : Option String
  answer : Option String
  snippet : Option String
  deriving DecidableEq, Repr

/-- The `knowledgeGraph` object of a Serper response; sub-fields optional. -/
structure KnowledgeGraph where
  title : Option String
  description : Option String
  deriving DecidableEq, Repr

/-- The JSON dict returned by the search call, as the keys
`format_search_results` inspects (`error`, `organic`, `answerBox`,
`knowledgeGraph`); a `none` field models an absent key. -/
structure SearchResult where
  organic : Option (List OrganicEntry)
  answerBox : Option AnswerBox
  knowledgeGraph : Option KnowledgeGraph
  error : Option String
  deriving DecidableEq, Repr

/-- `search_web` (MediAssist.py:49-64): POSTs `query + " medical information"`
to the Serper endpoint. The transport (`requests.post` + `.json()`) is an
oracle `post`; the `except` clause turns any transport failure into the dict
`{"error": str(e)}` — no other key set. -/
def search_web (post : String → Except String SearchResult) (query : String) :
    SearchResult :=
  match post (query ++ " medical information") with
  | Except.ok r => r
  | Except.error e =>
      { organic := none, answerBox := none, knowledgeGraph := none,
        error := some e }

/-- The numbered organic-entry lines (MediAssist.py:74-78): `enumerate(.., 1)`
over the already-truncated list, each entry rendered with the defaults
`"No title"` / `"No link"` / `"No description"` for missing keys. -/
def organicLines : Nat → List OrganicEntry → String
  | _, [] => ""
  | i, r :: rs =>
      toString i ++ ". " ++ r.title.getD "No title" ++
        "\n   URL: " ++ r.link.getD "No link" ++
        "\n   Description: " ++ r.snippet.getD "No description" ++ "\n\n" ++
        organicLines (i + 1) rs

/-- The organic block (MediAssist.py:73-78): present only when the `organic`
key exists; truncated with `results["organic"][:5]`. -/
def organicBlock : Option (List OrganicEntry) → String
  | none => ""
  | some l => organicLines 1 (l.take 5)

/-- The answer-box block (MediAssist.py:80-85); missing sub-fields default
to the empty string. -/
def answerBoxBlock : Option AnswerBox → String
  | none => ""
  | some ab =>
      "Featured Medical Answer: " ++ ab.title.getD "" ++ "\n" ++
        ab.answer.getD "" ++ "\n" ++ ab.snippet.getD "" ++ "\n\n"

/-- The knowledge-graph block (MediAssist.py:87-91); missing sub-fields
default to the empty string. -/
def kgBlock : Option KnowledgeGraph → String
  | none => ""
  | some kg =>
      "Medical Knowledge: " ++ kg.title.getD "" ++ "\n" ++
        kg.description.getD "" ++ "\n\n"

/-- `format_search_results` (MediAssist.py:67-93): an `error` key short-circuits
to an error line; otherwise the header then organic, answer-box and
knowledge-graph blocks are concatenated in that order. -/
def format_search_results (results : SearchResult) : String :=
  match results.error with
  | some e => "Error performing search: " ++ e
  | none =>
      "Medical Search Results:\n\n" ++ organicBlock results.organic ++
        answerBoxBlock results.answerBox ++ kgBlock results.knowledgeGraph

/-- The `medical_context` constant (MediAssist.py:99-111), transcribed from
the triple-quoted Python literal byte for byte (note the trailing space after
"advice." and the 8-space lines). -/
def medical_context : String :=
  "\n" ++
  "        You are MediAssist, a helpful and compassionate medical AI assistant. Your purpose is to provide\n" ++
  "        information about medical conditions, treatments, and general health advice. \n" ++
  "        \n" ++
  "        Important guidelines:\n" ++
  "        1. Always clarify that you're an AI and not a doctor\n" ++
  "        2. Recommend consulting healthcare professionals for diagnosis and treatment\n" ++
  "        3. Provide factual, evidence-based information\n" ++
  "        4. Be empathetic and supportive in your tone\n" ++
  "        5. Never make definitive diagnoses\n" ++
  "        6. Emphasize the importance of seeking proper medical care\n" ++
  "        7. Use clear, understandable language without excessive medical jargon\n" ++
  "        "

/-- The part of both f-string templates (MediAssist.py:120-123 and 135-138)
before the interpolated user prompt. -/
def plain_pre : String :=
  "\n            " ++ medical_context ++
    "\n            \n            The user query is: "

/-- The tail of the plain (no-search) template (MediAssist.py:138-142). -/
def plain_post : String :=
  "\n            \n            Please provide a helpful response based on your medical knowledge.\n            Remember to follow the medical guidelines provided above.\n            "

/-- The part of the search template between the user prompt and the
interpolated `search_context` (MediAssist.py:123-126). -/
def search_mid : String :=
  "\n            \n            Here are relevant medical search results from the web:\n            "

/-- The tail of the search template (MediAssist.py:126-132); note the
trailing spaces after "knowledge. " and "information. ". -/
def search_post : String :=
  "\n            \n            Please provide a helpful response based on these search results and your knowledge. \n            If the search results are relevant, incorporate that information. \n            Always cite the sources if you use information from the search results.\n            Remember to follow the medical guidelines provided above.\n            "

/-- The plain-mode `full_prompt` f-string (MediAssist.py:135-142). -/
def plain_prompt (prompt : String) : String :=
  plain_pre ++ prompt ++ plain_post

/-- The search-mode `full_prompt` f-string (MediAssist.py:120-132). -/
def search_prompt (prompt search_context : String) : String :=
  plain_pre ++ prompt ++ search_mid ++ search_context ++ search_post

/-- The `full_prompt` computed by `get_gemini_response` (MediAssist.py:113-142):
the search branch is taken only when `with_search and query` is truthy in
Python, i.e. `with_search` is `True` and `query` is neither `None` nor `""`. -/
def full_prompt_for (post : String → Except String SearchResult)
    (prompt : String) (with_search : Bool) (query : Option String) : String :=
  match with_search, query with
  | true, some q =>
      if q = "" then plain_prompt prompt
      else search_prompt prompt (format_search_results (search_web post q))
  | _, _ => plain_prompt prompt

/-- `get_gemini_response` (MediAssist.py:96-155). The LLM call
(`start_chat(history=chat_history)` + `send_message(full_prompt)`) is an
oracle `llm` receiving the current history and the prompt text actually sent;
`Except.error e` models a raised exception with `str(e) = e`. On success the
history is extended by the raw `prompt` (user) and the reply (model), in that
order; on failure the handler returns `"An error occurred: " + str(e)` and
the history is left untouched (the appends at lines 149-150 are never
reached). Returns (returned string, resulting `chat_history`). -/
def get_gemini_response (llm : List ModelTurn → String → Except String String)
    (post : String → Except String SearchResult)
    (chat_history : List ModelTurn) (prompt : String)
    (with_search : Bool) (query : Option String) : String × List ModelTurn :=
  let full_prompt := full_prompt_for post prompt with_search query
  match llm chat_history full_prompt with
  | Except.ok text =>
      (text,
        chat_history ++
          [{ role := "user", parts := [prompt] },
           { role := "model", parts := [text] }])
  | Except.error e => ("An error occurred: " ++ e, chat_history)

/-- The introduction message appended to an empty display history
(MediAssist.py:204-209). -/
def greeting_text : String :=
  "Hello! I'm MediAssist, your medical AI assistant. I can help answer your health questions and provide general medical information. How may I assist you today? Remember, I'm not a doctor, and my responses shouldn't replace professional medical advice."

/-- The greeting display entry (role "assistant"). -/
def greetingMsg : DisplayMsg :=
  { role := "assistant", content := greeting_text }

/-- The per-session state kept in `st.session_state`. -/
structure AppState where
  messages : List DisplayMsg
  chat_history : List ModelTurn
  search_mode : Bool
  deriving DecidableEq, Repr

/-- The state after `initialize_session_state` on a fresh session
(MediAssist.py:9-19): both sequences empty, search off. -/
def init_state : AppState :=
  { messages := [], chat_history := [], search_mode := false }

/-- The external inputs of one Streamlit rerun of the script: the toggle's
current value, whether the clear button was clicked, the chat input
(`none` when nothing was submitted; Python tests its truthiness, so
`some ""` is also a non-submission), and the two network oracles in
effect for the turn. -/
structure Event where
  toggle : Bool
  clear : Bool
  input : Option String
  llm : List ModelTurn → String → Except String String
  post : String → Except String SearchResult

/-- One top-to-bottom rerun of `main()`'s session-state logic
(MediAssist.py:158-251), in source order: the toggle writes `search_mode`
(lines 175-179, net effect `search_mode := toggle`), the clear button empties
both sequences (lines 182-185), an empty display history receives the
greeting (lines 204-209), and a truthy chat input appends the user message,
runs `get_gemini_response` on the current history, and appends the returned
string as the assistant message (lines 224-251). -/
def rerun (s : AppState) (ev : Event) : AppState :=
  let s1 : AppState := { s with search_mode := ev.toggle }
  let s2 : AppState :=
    if ev.clear then { s1 with messages := [], chat_history := [] } else s1
  let s3 : AppState :=
    if s2.messages.isEmpty then { s2 with messages := [greetingMsg] } else s2
  match ev.input with
  | none => s3
  | some p =>
      if p = "" then s3
      else
        let s4 : AppState :=
          { s3 with messages := s3.messages ++ [{ role := "user", content := p }] }
        let r :=
          get_gemini_response ev.llm ev.post s4.chat_history p s4.search_mode
            (if s4.search_mode then some p else none)
        { s4 with
            chat_history := r.2,
            messages := s4.messages ++ [{ role := "assistant", content := r.1 }] }

/-- The session state reached from a fresh session by a list of reruns. -/
def replay (evs : List Event) : AppState :=
  evs.foldl rerun init_state

/-- The substring whose presence marks a search-augmented prompt. -/
def msr : String := "Medical Search Results"

/-- Executable check that `p` starts the list `l`. -/
def startsL : List Char → List Char → Bool
  | [], _ => true
  | _ :: _, [] => false
  | c :: p, d :: l => c == d && startsL p l

/-- Executable check that `pat` occurs contiguously inside `l`. -/
def occursIn (pat : List Char) : List Char → Bool
  | [] => startsL pat []
  | d :: l => startsL pat (d :: l) || occursIn pat l

/-- Executable check that `p` ends the list `l`. -/
def endsL (p l : List Char) : Bool := startsL p.reverse l.reverse

/-- Check that no nonempty proper leading part of `pat` ends `a`
(no occurrence of `pat` can start strictly inside `a` and continue past it). -/
def noTailCut (pat a : List Char) : Bool :=
  (List.range pat.length).all fun i => i == 0 || !(endsL (pat.take i) a)

/-- Check that no nonempty proper trailing part of `pat` starts `b`
(no occurrence of `pat` can end strictly inside `b` having started before it). -/
def noHeadCut (pat b : List Char) : Bool :=
  (List.range pat.length).all fun i => i == 0 || !(startsL (pat.drop i) b)

/-- An organic entry with the defaults `format_search_results` substitutes
for its missing keys (MediAssist.py:75-77). -/
def fillEntry (e : OrganicEntry) : OrganicEntry :=
  { title := some (e.title.getD "No title"),
    link := some (e.link.getD "No link"),
    snippet := some (e.snippet.getD "No description") }

/-- An answer box with the defaults (empty strings) substituted
(MediAssist.py:82-84). -/
def fillAB (ab : AnswerBox) : AnswerBox :=
  { title := some (ab.title.getD ""),
    answer := some (ab.answer.getD ""),
    snippet := some (ab.snippet.getD "") }

/-- A knowledge graph with the defaults (empty strings) substituted
(MediAssist.py:89-90). -/
def fillKG (kg : KnowledgeGraph) : KnowledgeGraph :=
  { title := some (kg.title.getD ""),
    description := some (kg.description.getD "") }

/-- The search result with every missing sub-field replaced by the default
string the formatter would substitute for it. -/
def fillDefaults (r : SearchResult) : SearchResult :=
  { organic := r.organic.map (List.map fillEntry),
    answerBox := r.answerBox.map fillAB,
    knowledgeGraph := r.knowledgeGraph.map fillKG,
    error := r.error }

/-- Split a character list at newlines (each element is one line). -/
def splitLines : List Char → List (List Char)
  | [] => [[]]
  | c :: cs =>
      if c = '\n' then [] :: splitLines cs
      else
        match splitLines cs with
        | [] => [[c]]
        | l :: ls => (c :: l) :: ls

/-- A line that, after leading spaces, starts with a digit followed by a
dot — the shape of the numbered behavioral guidelines in `medical_context`. -/
def isNumberedLine (l : List Char) : Bool :=
  match l.dropWhile (fun c => c = ' ') with
  | c :: d :: _ => c.isDigit && (d == '.')
  | _ => false

/-- The number of numbered guideline lines in a policy string. -/
def guidelineCount (s : String) : Nat :=
  ((splitLines s.data).filter isNumberedLine).length

/-- `rerun` instrumented with two counters, both reset by the clear button:
the number of completed non-error exchanges (the LLM call returned normally,
so the handler appended a (user, model) pair) and the number of submitted
user messages (error or not). The success test `r.2.length = old + 2` holds
exactly when the oracle returned `Except.ok` (see `get_gemini_response`). -/
def stepCounted (p : AppState × Nat × Nat) (ev : Event) : AppState × Nat × Nat :=
  let s1 : AppState := { p.1 with search_mode := ev.toggle }
  let s2 : AppState :=
    if ev.clear then { s1 with messages := [], chat_history := [] } else s1
  let k2 : Nat := if ev.clear then 0 else p.2.1
  let n2 : Nat := if ev.clear then 0 else p.2.2
  let s3 : AppState :=
    if s2.messages.isEmpty then { s2 with messages := [greetingMsg] } else s2
  match ev.input with
  | none => (s3, k2, n2)
  | some q =>
      if q = "" then (s3, k2, n2)
      else
        let s4 : AppState :=
          { s3 with messages := s3.messages ++ [{ role := "user", content := q }] }
        let r :=
          get_gemini_response ev.llm ev.post s4.chat_history q s4.search_mode
            (if s4.search_mode then some q else none)
        ({ s4 with
            chat_history := r.2,
            messages := s4.messages ++ [{ role := "assistant", content := r.1 }] },
          (if r.2.length = s4.chat_history.length + 2 then k2 + 1 else k2),
          n2 + 1)

/-- The counted replay of a session from the fresh state. -/
def countedRun (evs : List Event) : AppState × Nat × Nat :=
  evs.foldl stepCounted (init_state, 0, 0)

/-- The alignment invariant: model context holds one (user, model) pair per
counted success, display holds one user entry per counted submission, and
every model-context entry has role "user" or "model". -/
def aligned (p : AppState × Nat × Nat) : Prop :=
  p.1.chat_history.length = 2 * p.2.1 ∧
  (p.1.messages.filter (fun m => m.role == "user")).length = p.2.2 ∧
  p.1.chat_history.all (fun t => t.role == "user" || t.role == "model") = true

/-- A rerun whose LLM oracle raises and whose search transport fails. -/
def failEvent : Event :=
  { toggle := false, clear := false, input := some "q",
    llm := fun _ _ => Except.error "boom",
    post := fun _ => Except.error "net" }

/-! ### List-search infrastructure -/

theorem startsL_iff : ∀ p l : List Char, startsL p l = true ↔ p <+: l
  | [], l => by simp [startsL]
  | c :: p, [] => by simp [startsL]
  | c :: p, d :: l => by
      simp [startsL, List.cons_prefix_cons, startsL_iff p l, And.comm]

theorem occursIn_iff (pat : List Char) : ∀ l, occursIn pat l = true ↔ pat <:+: l
  | [] => by
      simp [occursIn, startsL_iff, List.infix_nil]
  | d :: l => by
      rw [occursIn, List.infix_cons_iff]
      simp [startsL_iff, occursIn_iff pat l]

theorem endsL_iff (p l : List Char) : endsL p l = true ↔ p <:+ l := by
  rw [endsL, startsL_iff, List.reverse_prefix]

theorem noTailCut_spec {pat a : List Char} (h : noTailCut pat a = true) :
    ∀ i, 0 < i → i < pat.length → ¬ pat.take i <:+ a := by
  intro i hi hlen hcon
  have hall := List.all_eq_true.mp h i (List.mem_range.mpr hlen)
  rcases Bool.or_eq_true_iff.mp hall with h0 | hno
  · exact absurd (Nat.beq_eq_true_eq i 0 ▸ h0) (by omega)
  · rw [Bool.not_eq_true', ← Bool.not_eq_true] at hno
    exact hno ((endsL_iff _ _).mpr hcon)

theorem noHeadCut_spec {pat b : List Char} (h : noHeadCut pat b = true) :
    ∀ i, 0 < i → i < pat.length → ¬ pat.drop i <+: b := by
  intro i hi hlen hcon
  have hall := List.all_eq_true.mp h i (List.mem_range.mpr hlen)
  rcases Bool.or_eq_true_iff.mp hall with h0 | hno
  · exact absurd (Nat.beq_eq_true_eq i 0 ▸ h0) (by omega)
  · rw [Bool.not_eq_true', ← Bool.not_eq_true] at hno
    exact hno ((startsL_iff _ _).mpr hcon)

theorem infix_append_split {pat a b : List Char} (h : pat <:+: a ++ b) :
    pat <:+: a ∨ pat <:+: b ∨
      ∃ i, 0 < i ∧ i < pat.length ∧ pat.take i <:+ a ∧ pat.drop i <+: b := by
  obtain ⟨s, t, hst⟩ := h
  have htake : (s ++ pat ++ t).take a.length = a := by
    rw [hst]; exact List.take_left a b
  have hdrop : (s ++ pat ++ t).drop a.length = b := by
    rw [hst]; exact List.drop_left a b
  by_cases h1 : s.length + pat.length ≤ a.length
  · have ha : a = s ++ (pat ++ t.take (a.length - s.length - pat.length)) := by
      conv_lhs => rw [← htake]
      rw [List.append_assoc, List.take_append_eq_append_take,
          List.take_of_length_le (by omega : s.length ≤ a.length),
          List.take_append_eq_append_take,
          List.take_of_length_le (by omega : pat.length ≤ a.length - s.length)]
    left
    refine ⟨s, t.take (a.length - s.length - pat.length), ?_⟩
    conv_rhs => rw [ha]
    rw [List.append_assoc]
  · by_cases h2 : a.length ≤ s.length
    · right; left
      refine ⟨s.drop a.length, t, ?_⟩
      have hb : b = s.drop a.length ++ (pat ++ t) := by
        conv_lhs => rw [← hdrop]
        rw [List.append_assoc, List.drop_append_eq_append_drop,
            Nat.sub_eq_zero_of_le h2, List.drop_zero]
      rw [hb, List.append_assoc]
    · right; right
      push_neg at h1 h2
      refine ⟨a.length - s.length, by omega, by omega, ⟨s, ?_⟩, ⟨t, ?_⟩⟩
      · have ha : a = s ++ (pat.take (a.length - s.length)) := by
          conv_lhs => rw [← htake]
          rw [List.append_assoc, List.take_append_eq_append_take,
              List.take_of_length_le (by omega : s.length ≤ a.length),
              List.take_append_eq_append_take,
              (by omega : a.length - s.length - pat.length = 0),
              List.take_zero, List.append_nil]
        exact ha.symm
      · have hb : b = pat.drop (a.length - s.length) ++ t := by
          conv_lhs => rw [← hdrop]
          rw [List.append_assoc, List.drop_append_eq_append_drop,
              List.drop_eq_nil_of_le (by omega : s.length ≤ a.length),
              List.nil_append, List.drop_append_eq_append_drop,
              (by omega : a.length - s.length - pat.length = 0),
              List.drop_zero]
        exact hb.symm

theorem infix_right_of_append {pat a b : List Char}
    (ha : occursIn pat a = false) (hcut : noTailCut pat a = true)
    (h : pat <:+: a ++ b) : pat <:+: b := by
  rcases infix_append_split h with hia | hib | ⟨i, hi, hlen, hsuf, _⟩
  · exact absurd ((occursIn_iff pat a).mpr hia) (by simp [ha])
  · exact hib
  · exact absurd hsuf (noTailCut_spec hcut i hi hlen)

theorem infix_left_of_append {pat a b : List Char}
    (hb : occursIn pat b = false) (hcut : noHeadCut pat b = true)
    (h : pat <:+: a ++ b) : pat <:+: a := by
  rcases infix_append_split h with hia | hib | ⟨i, hi, hlen, _, hpre⟩
  · exact hia
  · exact absurd ((occursIn_iff pat b).mpr hib) (by simp [hb])
  · exact absurd hpre (noHeadCut_spec hcut i hi hlen)

/-! ### Where "Medical Search Results" can occur in a prompt -/

set_option maxRecDepth 20000 in
theorem msr_not_in_plain_pre : occursIn msr.data plain_pre.data = false := by decide

set_option maxRecDepth 20000 in
theorem msr_no_tail_cut_plain_pre : noTailCut msr.data plain_pre.data = true := by decide

set_option maxRecDepth 20000 in
theorem msr_not_in_plain_post : occursIn msr.data plain_post.data = false := by decide

set_option maxRecDepth 20000 in
theorem msr_no_head_cut_plain_post : noHeadCut msr.data plain_post.data = true := by decide

/-- The plain (no-search) template introduces no occurrence of
"Medical Search Results": any occurrence comes from the user query itself. -/
theorem plain_prompt_no_msr {q : String} (hq : ¬ msr.data <:+: q.data) :
    ¬ msr.data <:+: (plain_prompt q).data := by
  intro h
  have hdata : (plain_prompt q).data =
      plain_pre.data ++ (q.data ++ plain_post.data) := by
    simp [plain_prompt, String.data_append]
  rw [hdata] at h
  have h1 : msr.data <:+: q.data ++ plain_post.data :=
    infix_right_of_append msr_not_in_plain_pre msr_no_tail_cut_plain_pre h
  exact hq (infix_left_of_append msr_not_in_plain_post msr_no_head_cut_plain_post h1)

/-- On an error-free search result the formatter's output starts with the
"Medical Search Results:" header, so the search template always contains
the marker substring. -/
theorem msr_in_search_prompt (q : String) (r : SearchResult)
    (hr : r.error = none) :
    msr.data <:+: (search_prompt q (format_search_results r)).data := by
  have hf : format_search_results r =
      (msr ++ ":\n\n") ++ organicBlock r.organic ++
        answerBoxBlock r.answerBox ++ kgBlock r.knowledgeGraph := by
    have hsplit : ("Medical Search Results:\n\n" : String) = msr ++ ":\n\n" := by
      decide
    rw [format_search_results, hr, hsplit]
  refine ⟨(plain_pre ++ q ++ search_mid).data,
    (":\n\n" ++ organicBlock r.organic ++ answerBoxBlock r.answerBox ++
      kgBlock r.knowledgeGraph ++ search_post).data, ?_⟩
  rw [search_prompt, hf]
  simp [String.data_append]

/-! ### The per-turn handler -/

theorem get_gemini_ok {llm : List ModelTurn → String → Except String String}
    {post : String → Except String SearchResult} {hist : List ModelTurn}
    {prompt : String} {ws : Bool} {q : Option String} {t : String}
    (h : llm hist (full_prompt_for post prompt ws q) = Except.ok t) :
    get_gemini_response llm post hist prompt ws q =
      (t, hist ++
        [{ role := "user", parts := [prompt] },
         { role := "model", parts := [t] }]) := by
  rw [get_gemini_response]
  simp only [h]

theorem get_gemini_err {llm : List ModelTurn → String → Except String String}
    {post : String → Except String SearchResult} {hist : List ModelTurn}
    {prompt : String} {ws : Bool} {q : Option String} {e : String}
    (h : llm hist (full_prompt_for post prompt ws q) = Except.error e) :
    get_gemini_response llm post hist prompt ws q =
      ("An error occurred: " ++ e, hist) := by
  rw [get_gemini_response]
  simp only [h]

/-- C1 (counterexample): after a completed turn on the query "hi" with search
off, the stored user entry of the model context is the raw query "hi", while
the text actually sent to the provider on that turn was the full templated
prompt — and the two differ. So replaying the stored sequence does not
reproduce the message texts the provider received. -/
theorem stored_entry_ne_sent :
    (get_gemini_response (fun _ _ => Except.ok "OK")
        (fun _ => Except.error "net") [] "hi" false none).2 =
      [{ role := "user", parts := ["hi"] }, { role := "model", parts := ["OK"] }] ∧
    "hi" ≠ full_prompt_for (fun _ => Except.error "net") "hi" false none := by
  exact ⟨rfl, by decide⟩

/-- C1 (amended): on every successful turn the handler appends to the model
context, in order and dropping nothing, exactly one user entry holding the
raw user query of that turn and one model entry holding the provider's reply;
the text actually sent to the provider is the templated
`full_prompt_for post prompt ws q`, of which only the raw query is stored. -/
theorem model_context_append_raw_query
    (llm : List ModelTurn → String → Except String String)
    (post : String → Except String SearchResult) (hist : List ModelTurn)
    (prompt : String) (ws : Bool) (q : Option String) (t : String)
    (h : llm hist (full_prompt_for post prompt ws q) = Except.ok t) :
    get_gemini_response llm post hist prompt ws q =
      (t, hist ++
        [{ role := "user", parts := [prompt] },
         { role := "model", parts := [t] }]) :=
  get_gemini_ok h

/-- Witness for the amended C1 at a concrete turn. -/
theorem model_context_append_raw_query_witness :
    get_gemini_response (fun _ _ => Except.ok "Drink water.")
        (fun _ => Except.error "net") [] "What helps a cold?" false none =
      ("Drink water.",
        [{ role := "user", parts := ["What helps a cold?"] },
         { role := "model", parts := ["Drink water."] }]) :=
  model_context_append_raw_query _ _ [] "What helps a cold?" false none
    "Drink water." rfl

/-- C3: if the LLM provider call raises, the handler returns
`"An error occurred: " + str(e)` — a string that starts with
"An error occurred:" — and the model-context history is returned unchanged:
the failed turn appends nothing (the appends at MediAssist.py:149-150 are
after the call and are never reached). -/
theorem llm_failure_leaves_history
    (llm : List ModelTurn → String → Except String String)
    (post : String → Except String SearchResult) (hist : List ModelTurn)
    (prompt : String) (ws : Bool) (q : Option String) (e : String)
    (h : llm hist (full_prompt_for post prompt ws q) = Except.error e) :
    get_gemini_response llm post hist prompt ws q =
      ("An error occurred: " ++ e, hist) ∧
    "An error occurred:".data <+:
      (get_gemini_response llm post hist prompt ws q).1.data := by
  refine ⟨get_gemini_err h, ?_⟩
  rw [get_gemini_err h]
  have hsp : ("An error occurred: " : String) = "An error occurred:" ++ " " := by
    decide
  rw [hsp, String.append_assoc, String.data_append]
  exact List.prefix_append _ _

/-- Witness for C3 at a concrete failing turn: history survives untouched. -/
theorem llm_failure_leaves_history_witness :
    get_gemini_response (fun _ _ => Except.error "quota exceeded")
        (fun _ => Except.error "net")
        [{ role := "user", parts := ["a"] }, { role := "model", parts := ["b"] }]
        "again?" true (some "again?") =
      ("An error occurred: quota exceeded",
        [{ role := "user", parts := ["a"] }, { role := "model", parts := ["b"] }]) ∧
    "An error occurred:".data <+:
      (get_gemini_response (fun _ _ => Except.error "quota exceeded")
        (fun _ => Except.error "net")
        [{ role := "user", parts := ["a"] }, { role := "model", parts := ["b"] }]
        "again?" true (some "again?")).1.data :=
  llm_failure_leaves_history _ _ _ "again?" true (some "again?")
    "quota exceeded" rfl

/-- C4: a transport failure of the search call yields the dict
`{"error": str(e)}` — `error` set, no organic entries, no other key — and the
turn handler is a total function that still returns a displayable string:
the provider's reply on success, or the non-empty
`"An error occurred: ..."` string on provider failure. -/
theorem search_failure_degrades :
    (∀ (post : String → Except String SearchResult) (q e : String),
      post (q ++ " medical information") = Except.error e →
        search_web post q =
          { organic := none, answerBox := none, knowledgeGraph := none,
            error := some e }) ∧
    (∀ (llm : List ModelTurn → String → Except String String)
        (post : String → Except String SearchResult) (hist : List ModelTurn)
        (prompt : String) (ws : Bool) (q : Option String),
      (∃ t, llm hist (full_prompt_for post prompt ws q) = Except.ok t ∧
          (get_gemini_response llm post hist prompt ws q).1 = t) ∨
      (∃ e, llm hist (full_prompt_for post prompt ws q) = Except.error e ∧
          (get_gemini_response llm post hist prompt ws q).1 =
            "An error occurred: " ++ e ∧
          (get_gemini_response llm post hist prompt ws q).1 ≠ "")) := by
  constructor
  · intro post q e h
    rw [search_web, h]
  · intro llm post hist prompt ws q
    cases h : llm hist (full_prompt_for post prompt ws q) with
    | ok t => exact Or.inl ⟨t, rfl, by rw [get_gemini_ok h]⟩
    | error e =>
        refine Or.inr ⟨e, rfl, by rw [get_gemini_err h], ?_⟩
        rw [get_gemini_err h]
        intro hcon
        have hcon' := congrArg String.data hcon
        rw [String.data_append] at hcon'
        have : ("An error occurred: " : String).data = [] :=
          (List.append_eq_nil.mp hcon').1
        exact absurd this (by decide)

/-- Witness for C4: a concrete failing transport and a concrete failing LLM. -/
theorem search_failure_degrades_witness :
    search_web (fun _ => Except.error "timeout") "flu" =
      { organic := none, answerBox := none, knowledgeGraph := none,
        error := some "timeout" } ∧
    ((∃ t, (Except.error "down" : Except String String) = Except.ok t ∧
        (get_gemini_response (fun _ _ => Except.error "down")
          (fun _ => Except.error "timeout") [] "flu" true (some "flu")).1 = t) ∨
      (∃ e, (Except.error "down" : Except String String) = Except.error e ∧
        (get_gemini_response (fun _ _ => Except.error "down")
          (fun _ => Except.error "timeout") [] "flu" true (some "flu")).1 =
            "An error occurred: " ++ e ∧
        (get_gemini_response (fun _ _ => Except.error "down")
          (fun _ => Except.error "timeout") [] "flu" true (some "flu")).1 ≠ "")) :=
  ⟨search_failure_degrades.1 (fun _ => Except.error "timeout") "flu" "timeout" rfl,
   search_failure_degrades.2 (fun _ _ => Except.error "down")
     (fun _ => Except.error "timeout") [] "flu" true (some "flu")⟩

set_option maxRecDepth 100000 in
/-- C5 (counterexample): both halves of the claim fail on the code.
First, the claim quantifies over every user query, but the query text is
interpolated into the prompt, so the prompt built with NO search block DOES
contain "Medical Search Results" when the query itself is that very string.
Second, a non-null search block need NOT put the marker into the prompt: on
a failed search the formatter emits only "Error performing search: ..."
(MediAssist.py:68-69), and the search template's own text mentions only the
lowercase "medical search results", so the search-augmented prompt built
from that block contains no occurrence of the (capitalised) marker. -/
theorem msr_marker_counterexample :
    msr.data <:+: (plain_prompt "Medical Search Results").data ∧
    ¬ msr.data <:+:
      (search_prompt "flu"
        (format_search_results
          { organic := none, answerBox := none, knowledgeGraph := none,
            error := some "timeout" })).data := by
  constructor
  · refine ⟨plain_pre.data, plain_post.data, ?_⟩
    rw [plain_prompt, String.data_append, String.data_append]
    rfl
  · intro h
    have ht := (occursIn_iff msr.data _).mpr h
    have hf : occursIn msr.data
        (search_prompt "flu"
          (format_search_results
            { organic := none, answerBox := none, knowledgeGraph := none,
              error := some "timeout" })).data = false := by decide
    rw [hf] at ht
    exact Bool.false_ne_true ht

/-- C5 (amended): for a user query that does not itself contain
"Medical Search Results", the plain (searchBlock-free) prompt never contains
that substring; and the search-augmented prompt built from the formatter's
output on an error-free search result always contains it (the occurrence is
the formatter's header — on an error result the formatter emits only an
error line, which contains no such header). -/
theorem prompt_msr_marker (q : String) (hq : ¬ msr.data <:+: q.data) :
    (¬ msr.data <:+: (plain_prompt q).data) ∧
    (∀ r : SearchResult, r.error = none →
      msr.data <:+: (search_prompt q (format_search_results r)).data) :=
  ⟨plain_prompt_no_msr hq, fun r hr => msr_in_search_prompt q r hr⟩

/-- Witness for the amended C5 at a concrete query and search result. -/
theorem prompt_msr_marker_witness :
    (¬ msr.data <:+: (plain_prompt "What causes a migraine?").data) ∧
    msr.data <:+:
      (search_prompt "What causes a migraine?"
        (format_search_results
          { organic := some [{ title := some "Migraine - Mayo Clinic",
                               link := some "https://mayo.example",
                               snippet := some "Causes of migraine." }],
            answerBox := none, knowledgeGraph := none, error := none })).data :=
  ⟨(prompt_msr_marker "What causes a migraine?" (by decide)).1,
   (prompt_msr_marker "What causes a migraine?" (by decide)).2
     { organic := some [{ title := some "Migraine - Mayo Clinic",
                          link := some "https://mayo.example",
                          snippet := some "Causes of migraine." }],
       answerBox := none, knowledgeGraph := none, error := none } rfl⟩

/-- C6: the formatter renders at most the first 5 organic entries — its
output on any result equals its output on the result truncated to the first
5 organic entries, so entries beyond the 5th can never appear. -/
theorem format_at_most_five (r : SearchResult) :
    format_search_results r =
      format_search_results
        { r with organic := r.organic.map (fun l => l.take 5) } := by
  cases r with
  | mk org ab kg err =>
      cases err <;> cases org <;>
        simp [format_search_results, organicBlock, List.take_take]

/-- C7 (counterexample): an answer box whose `title`, `answer` and `snippet`
keys are all missing is rendered with empty strings in their places — the
output is identical to the one for explicitly empty sub-fields and contains
no placeholder text, refuting "every missing sub-field is rendered as an
explicit placeholder string". -/
theorem answer_box_no_placeholder :
    format_search_results
        { organic := none,
          answerBox := some { title := none, answer := none, snippet := none },
          knowledgeGraph := none, error := none } =
      "Medical Search Results:\n\nFeatured Medical Answer: \n\n\n\n" ∧
    format_search_results
        { organic := none,
          answerBox := some { title := none, answer := none, snippet := none },
          knowledgeGraph := none, error := none } =
      format_search_results
        { organic := none,
          answerBox := some { title := some "", answer := some "",
                              snippet := some "" },
          knowledgeGraph := none, error := none } := by
  exact ⟨by decide, by decide⟩

theorem organicLines_fillEntry : ∀ (i : Nat) (l : List OrganicEntry),
    organicLines i (l.map fillEntry) = organicLines i l
  | _, [] => rfl
  | i, e :: rs => by
      cases e with
      | mk t lk sn =>
          cases t <;> cases lk <;> cases sn <;>
            simp [organicLines, fillEntry, organicLines_fillEntry (i + 1) rs]

/-- C7 (amended): the formatter's error-free output is always the header
followed by the organic block, then the answer-box block, then the
knowledge-graph block, in that fixed order; and its output never changes
when every missing sub-field is replaced by the default the code substitutes
for it — "No title" / "No link" / "No description" for organic entries, but
the EMPTY string (no visible placeholder) for answer-box and knowledge-graph
sub-fields. -/
theorem format_order_and_defaults (r : SearchResult) :
    format_search_results r = format_search_results (fillDefaults r) ∧
    (r.error = none →
      format_search_results r =
        "Medical Search Results:\n\n" ++ organicBlock r.organic ++
          answerBoxBlock r.answerBox ++ kgBlock r.knowledgeGraph) := by
  constructor
  · cases r with
    | mk org ab kg err =>
        cases err
        · cases org with
          | none =>
              cases ab with
              | none =>
                  cases kg with
                  | none => rfl
                  | some g =>
                      cases g with
                      | mk t d =>
                          cases t <;> cases d <;>
                            simp [format_search_results, fillDefaults, fillKG,
                              kgBlock, fillAB, answerBoxBlock, organicBlock]
              | some b =>
                  cases kg with
                  | none =>
                      cases b with
                      | mk t a sn =>
                          cases t <;> cases a <;> cases sn <;>
                            simp [format_search_results, fillDefaults, fillKG,
                              kgBlock, fillAB, answerBoxBlock, organicBlock]
                  | some g =>
                      cases b with
                      | mk t a sn =>
                          cases g with
                          | mk gt gd =>
                              cases t <;> cases a <;> cases sn <;> cases gt <;>
                                cases gd <;>
                                simp [format_search_results, fillDefaults,
                                  fillKG, kgBlock, fillAB, answerBoxBlock,
                                  organicBlock]
          | some l =>
              cases ab <;> cases kg <;>
                simp [format_search_results, fillDefaults, fillKG, kgBlock,
                  fillAB, answerBoxBlock, organicBlock, ← List.map_take,
                  organicLines_fillEntry]
        · rfl
  · intro hr
    rw [format_search_results, hr]

/-- Witness for C7 on a concrete error-free result with a partially missing
organic entry. -/
theorem format_order_and_defaults_witness :
    format_search_results
        { organic := some [{ title := some "Flu", link := none, snippet := none }],
          answerBox := none, knowledgeGraph := none, error := none } =
      format_search_results
        (fillDefaults
          { organic := some [{ title := some "Flu", link := none, snippet := none }],
            answerBox := none, knowledgeGraph := none, error := none }) ∧
    format_search_results
        { organic := some [{ title := some "Flu", link := none, snippet := none }],
          answerBox := none, knowledgeGraph := none, error := none } =
      "Medical Search Results:\n\n" ++
        organicBlock (some [{ title := some "Flu", link := none, snippet := none }]) ++
        answerBoxBlock none ++ kgBlock none :=
  ⟨(format_order_and_defaults _).1, (format_order_and_defaults _).2 rfl⟩

/-! ### The policy preamble -/

theorem medical_context_in_plain (prompt : String) :
    medical_context.data <:+: (plain_prompt prompt).data := by
  refine ⟨"\n            ".data,
    ("\n            \n            The user query is: " ++ prompt ++ plain_post).data, ?_⟩
  rw [plain_prompt, plain_pre]
  simp [String.data_append]

theorem medical_context_in_search (prompt sc : String) :
    medical_context.data <:+: (search_prompt prompt sc).data := by
  refine ⟨"\n            ".data,
    ("\n            \n            The user query is: " ++ prompt ++ search_mid ++
      sc ++ search_post).data, ?_⟩
  rw [search_prompt, plain_pre]
  simp [String.data_append]

set_option maxRecDepth 40000 in
/-- C8 (counterexample): the policy preamble does not list exactly five
numbered behavioral guidelines — it lists seven (the five the claim names
plus "Be empathetic and supportive in your tone" and "Emphasize the
importance of seeking proper medical care"). -/
theorem medical_context_not_five_guidelines :
    guidelineCount medical_context = 7 ∧ guidelineCount medical_context ≠ 5 := by
  constructor
  · decide
  · decide

set_option maxRecDepth 40000 in
/-- C8 (amended): the preamble is the fixed constant `medical_context`,
present in the prompt of every turn (both templates embed it), and it lists
exactly seven numbered guidelines: the five the claim names plus an
empathetic-tone guideline and a seek-proper-care guideline. -/
theorem medical_context_constant_seven :
    guidelineCount medical_context = 7 ∧
    occursIn "1. Always clarify that you're an AI and not a doctor".data
      medical_context.data = true ∧
    occursIn "2. Recommend consulting healthcare professionals for diagnosis and treatment".data
      medical_context.data = true ∧
    occursIn "3. Provide factual, evidence-based information".data
      medical_context.data = true ∧
    occursIn "4. Be empathetic and supportive in your tone".data
      medical_context.data = true ∧
    occursIn "5. Never make definitive diagnoses".data
      medical_context.data = true ∧
    occursIn "6. Emphasize the importance of seeking proper medical care".data
      medical_context.data = true ∧
    occursIn "7. Use clear, understandable language without excessive medical jargon".data
      medical_context.data = true ∧
    ∀ (post : String → Except String SearchResult) (prompt : String)
      (ws : Bool) (q : Option String),
      medical_context.data <:+: (full_prompt_for post prompt ws q).data := by
  refine ⟨by decide, by decide, by decide, by decide, by decide, by decide,
    by decide, by decide, ?_⟩
  intro post prompt ws q
  match ws, q with
  | true, some s =>
      rw [full_prompt_for]
      by_cases h : s = ""
      · rw [if_pos h]; exact medical_context_in_plain prompt
      · rw [if_neg h]; exact medical_context_in_search prompt _
  | true, none => exact medical_context_in_plain prompt
  | false, some s => exact medical_context_in_plain prompt
  | false, none => exact medical_context_in_plain prompt

/-! ### Session-level behavior -/

/-- C9: clicking "Clear Chat History" empties both sequences, and the same
script run then refills the empty display with the greeting
(MediAssist.py:182-185 and 204-209), so the session ends the rerun with
display history exactly `[greeting]` and an empty model context,
whatever the prior state was. -/
theorem clear_resets_session (s : AppState) (tog : Bool)
    (llm : List ModelTurn → String → Except String String)
    (post : String → Except String SearchResult) :
    rerun s { toggle := tog, clear := true, input := none, llm := llm, post := post } =
      { messages := [greetingMsg], chat_history := [], search_mode := tog } := by
  rw [rerun]
  simp

/-- C10: when search mode is on but the query argument is `None` or the empty
string, Python's `if with_search and query:` is falsy, so no search request
is issued — the resulting prompt is the plain template and is independent of
the search transport (it is the same for every `post` oracle). -/
theorem no_search_without_query (post1 post2 : String → Except String SearchResult)
    (prompt : String) :
    full_prompt_for post1 prompt true none = plain_prompt prompt ∧
    full_prompt_for post2 prompt true (some "") = plain_prompt prompt := by
  exact ⟨rfl, by rw [full_prompt_for, if_pos rfl]⟩

theorem stepCounted_fst (p : AppState × Nat × Nat) (ev : Event) :
    (stepCounted p ev).1 = rerun p.1 ev := by
  rw [stepCounted, rerun]
  cases hin : ev.input with
  | none => simp
  | some q =>
      by_cases hq : q = ""
      · simp [hq]
      · simp [hq]

theorem countedRun_fst : ∀ (evs : List Event) (p : AppState × Nat × Nat),
    (evs.foldl stepCounted p).1 = evs.foldl rerun p.1
  | [], _ => rfl
  | ev :: evs, p => by
      rw [List.foldl_cons, List.foldl_cons, countedRun_fst evs, stepCounted_fst]

theorem aligned_step {p : AppState × Nat × Nat} (ev : Event)
    (h : aligned p) : aligned (stepCounted p ev) := by
  obtain ⟨h1, h2, h3⟩ := h
  rw [stepCounted]
  set s1 : AppState := { p.1 with search_mode := ev.toggle } with hs1
  set s2 : AppState :=
    (if ev.clear then { s1 with messages := [], chat_history := [] } else s1) with hs2
  set k2 : Nat := (if ev.clear then 0 else p.2.1) with hk2
  set n2 : Nat := (if ev.clear then 0 else p.2.2) with hn2
  have g1 : s2.chat_history.length = 2 * k2 := by
    rw [hs2, hk2]; cases ev.clear <;> simp [h1]
  have g2 : (s2.messages.filter (fun m => m.role == "user")).length = n2 := by
    rw [hs2, hn2]; cases ev.clear <;> simp [h2]
  have g3 : s2.chat_history.all (fun t => t.role == "user" || t.role == "model") = true := by
    rw [hs2]; cases ev.clear <;> simp [h3]
  set s3 : AppState :=
    (if s2.messages.isEmpty then { s2 with messages := [greetingMsg] } else s2) with hs3
  have g1' : s3.chat_history.length = 2 * k2 := by
    rw [hs3]; by_cases hemp : s2.messages.isEmpty <;> simp [hemp, g1]
  have g2' : (s3.messages.filter (fun m => m.role == "user")).length = n2 := by
    rw [hs3]
    by_cases hemp : s2.messages.isEmpty
    · have : s2.messages = [] := List.isEmpty_iff.mp hemp
      rw [this] at g2
      simp only [List.filter_nil, List.length_nil] at g2
      simp [hemp, greetingMsg, ← g2]
    · simp [hemp, g2]
  have g3' : s3.chat_history.all (fun t => t.role == "user" || t.role == "model") = true := by
    rw [hs3]; by_cases hemp : s2.messages.isEmpty <;> simp [hemp, g3]
  cases hin : ev.input with
  | none => exact ⟨g1', g2', g3'⟩
  | some q =>
      by_cases hq : q = ""
      · simp only [hq, reduceIte]
        exact ⟨g1', g2', g3'⟩
      · simp only [if_neg hq]
        cases hllm : ev.llm s3.chat_history
            (full_prompt_for ev.post q s3.search_mode
              (if s3.search_mode then some q else none)) with
        | ok t =>
            refine ⟨?_, ?_, ?_⟩
            · simp only [get_gemini_ok hllm]
              simp [List.length_append, g1']
              omega
            · simp only [get_gemini_ok hllm]
              simp [List.filter_append, g2', greetingMsg]
            · simp only [get_gemini_ok hllm]
              simp [List.all_append, g3']
        | error e =>
            refine ⟨?_, ?_, ?_⟩
            · simp only [get_gemini_err hllm]
              rw [if_neg (by omega : ¬ s3.chat_history.length = s3.chat_history.length + 2)]
              exact g1'
            · simp only [get_gemini_err hllm]
              simp [List.filter_append, g2']
            · simp only [get_gemini_err hllm]
              exact g3'

theorem countedRun_aligned : ∀ (evs : List Event) (p : AppState × Nat × Nat),
    aligned p → aligned (evs.foldl stepCounted p)
  | [], _, h => h
  | ev :: evs, p, h => by
      rw [List.foldl_cons]
      exact countedRun_aligned evs _ (aligned_step ev h)

/-- C2 (counterexample): after a single turn whose LLM call fails, the
display history holds a (user, assistant) pair — the user query and the
error string — that corresponds to NO (user, model) pair in the model
context, although it is not the static greeting: display shows 1 user
entry while the model context is empty, so the model-context length is not
twice the number of display pairs. -/
theorem error_turn_breaks_pairing :
    ((replay [failEvent]).messages.filter (fun m => m.role == "user")).length = 1 ∧
    (replay [failEvent]).chat_history.length = 0 ∧
    ¬ ((replay [failEvent]).chat_history.length =
      2 * ((replay [failEvent]).messages.filter
        (fun m => m.role == "user")).length) := by
  refine ⟨?_, ?_, ?_⟩ <;> decide

/-- C2 (amended): at every reachable session state, the model context holds
exactly one (user, model) pair per completed non-error exchange since the
last clear — its length is exactly twice that count — while the display
history holds one user entry per submitted exchange, error or not (error
exchanges and the greeting live only in display history); and no
model-context entry ever carries the greeting's "assistant" role. -/
theorem session_alignment (evs : List Event) :
    (countedRun evs).1 = replay evs ∧
    (replay evs).chat_history.length = 2 * (countedRun evs).2.1 ∧
    ((replay evs).messages.filter (fun m => m.role == "user")).length =
      (countedRun evs).2.2 ∧
    (replay evs).chat_history.all
      (fun t => t.role == "user" || t.role == "model") = true := by
  have hfst : (countedRun evs).1 = replay evs := countedRun_fst evs _
  have hal : aligned (countedRun evs) :=
    countedRun_aligned evs (init_state, 0, 0) ⟨rfl, rfl, rfl⟩
  obtain ⟨a1, a2, a3⟩ := hal
  rw [hfst] at a1 a2 a3
  exact ⟨hfst, a1, a2, a3⟩
